import Mathlib

set_option maxRecDepth 4096

/-!
Verification of the GNSS-SDR Galileo E1 DLL/PLL VEML tracking block
(`galileo_e1_dll_pll_veml_tracking_cc.cc`) and the volk_gnsssdr aligned
allocator (`volk_gnsssdr_malloc.c`).

The C++ `general_work` method is embedded shallowly as a pure step function
over an explicit state record.  C `double` arithmetic is modelled over ℚ
(exact rational arithmetic ignoring floating-point rounding); machine
integers are modelled as ℤ/ℕ (the claims under study do not involve
wraparound).  External collaborators that live outside the two source
files (the multicorrelator kernel, the loop-filter objects, the
discriminator, C/N0 and lock-detector functions) enter the step as oracle
inputs in an `Env` record; the controller logic itself is translated
line by line from the source.
-/

/-! ## Numeric primitives of the C source -/

/-- Truncation toward zero, the rounding mode used by C `fmod`:
`trunc(x) = ⌊x⌋` for `x ≥ 0` and `⌈x⌉` for `x < 0`. -/
def truncQ (x : ℚ) : ℤ :=
  if 0 ≤ x then ⌊x⌋ else ⌈x⌉

/-- C `fmod(x, y) = x - trunc(x / y) * y`; the result carries the sign
of the dividend `x`. -/
def fmodQ (x y : ℚ) : ℚ :=
  x - y * (truncQ (x / y) : ℚ)

/-- C `round`: rounding half away from zero. -/
def roundC (x : ℚ) : ℤ :=
  if 0 ≤ x then ⌊x + 1/2⌋ else ⌈x - 1/2⌉

/-! ## Aligned allocator (`volk_gnsssdr_malloc.c`) -/

/-- Size in bytes of `struct block_info { void *real; }` on a 64-bit
platform (one pointer). -/
def block_info_size : ℕ := 8

/-- Shallow embedding of the fallback `volk_gnsssdr_malloc` (the branch
compiled when neither C11 `aligned_alloc` nor `posix_memalign` is
available).  `underlying` is the address returned by `malloc`
(`none` models NULL, which the C code uses as address 0 in the pointer
arithmetic).  The C expression
`(real + sizeof(struct block_info) + alignment - 1) & ~(alignment - 1)`
rounds down to a multiple of the (power-of-two) alignment, written here
in division form.  The function unconditionally returns the computed
user address; there is no null check in the source. -/
def volk_gnsssdr_malloc_fallback (alignment : ℕ) (underlying : Option ℕ) : ℕ :=
  let a := if alignment < block_info_size then block_info_size else alignment
  let real := underlying.getD 0
  ((real + block_info_size + a - 1) / a) * a

/-- Shallow embedding of the `posix_memalign` variant of
`volk_gnsssdr_malloc`.  `malloc_result` / `memalign_result` are the
addresses produced by the underlying allocator (`none` = NULL or a
nonzero `posix_memalign` error).  For `alignment == 1` the code calls
plain `malloc` and returns its result unchecked; otherwise a
`posix_memalign` failure is reported and NULL returned. -/
def volk_gnsssdr_malloc_posix (alignment : ℕ) (malloc_result : Option ℕ)
    (memalign_result : Option ℕ) : Option ℕ :=
  if alignment = 1 then malloc_result
  else memalign_result

/-! ## Data model of the tracking block -/

/-- Complex sample (`gr_complex`); the two float components are modelled
as exact rationals. -/
structure gr_complex where
  re : ℚ
  im : ℚ

/-- The fields of `Gnss_Synchro` read or written by this block. -/
structure Gnss_Synchro where
  System : Char
  Signal : String
  PRN : ℕ
  Acq_delay_samples : ℚ
  Acq_doppler_hz : ℚ
  Acq_samplestamp_samples : ℤ
  Tracking_sample_counter : ℤ
  fs : ℤ
  Prompt_I : ℚ
  Prompt_Q : ℚ
  Code_phase_samples : ℚ
  Carrier_phase_rads : ℚ
  Carrier_Doppler_hz : ℚ
  CN0_dB_hz : ℚ
  Flag_valid_symbol_output : Bool
  correlation_length_ms : ℚ

/-- Compile-time constants from `Galileo_E1.h` (external header): the
value of the `GALILEO_TWO_PI` double constant. -/
def GALILEO_TWO_PI : ℚ := 6.283185307179586

def Galileo_E1_CODE_CHIP_RATE_HZ : ℚ := 1023000

def Galileo_E1_B_CODE_LENGTH_CHIPS : ℚ := 4092

def Galileo_E1_CODE_PERIOD : ℚ := 4 / 1000

def Galileo_E1_CODE_PERIOD_MS : ℚ := 4

def Galileo_E1_FREQ_HZ : ℚ := 1575420000

/-- Constants `#define`d at the top of the tracking source file. -/
def CN0_ESTIMATION_SAMPLES : ℕ := 20

def MINIMUM_VALID_CN0 : ℚ := 25

def MAXIMUM_LOCK_FAIL_COUNTER : ℕ := 50

def CARRIER_LOCK_THRESHOLD : ℚ := 0.85

/-- Members of the block that are set before/outside `general_work` and
only read by it: configuration, the acquisition snapshot taken by
`start_tracking`, and the acquisition `Gnss_Synchro` object that
`general_work` copies.  `blank_synchro` stands for the value produced by
the external default constructor `Gnss_Synchro()` used on the disabled
path. -/
structure Params where
  d_fs_in : ℤ
  d_channel : ℕ
  d_acq_code_phase_samples : ℚ
  d_acq_carrier_doppler_hz : ℚ
  d_acq_sample_stamp : ℤ
  acquisition_gnss_synchro : Gnss_Synchro
  blank_synchro : Gnss_Synchro

/-- The mutable members of the block touched by `general_work`. -/
structure TrackingState where
  d_enable_tracking : Bool
  d_pull_in : Bool
  d_sample_counter : ℤ
  d_current_prn_length_samples : ℤ
  d_carrier_doppler_hz : ℚ
  d_code_freq_chips : ℚ
  d_rem_code_phase_samples : ℚ
  d_rem_carr_phase_rad : ℚ
  d_acc_carrier_phase_rad : ℚ
  d_acc_code_phase_secs : ℚ
  d_cn0_estimation_counter : ℕ
  d_Prompt_buffer : Fin 20 → gr_complex
  d_CN0_SNV_dB_Hz : ℚ
  d_carrier_lock_test : ℚ
  d_carrier_lock_fail_counter : ℕ
  d_Very_Early : gr_complex
  d_Early : gr_complex
  d_Prompt : gr_complex
  d_Late : gr_complex
  d_Very_Late : gr_complex

/-- Oracle values produced during one call by the external collaborators
(code outside the two source files): the five multicorrelator outputs,
the value of the `pll_cloop_two_quadrant_atan` discriminator at the new
Prompt, the outputs of the two stateful loop-filter objects, the
`dll_nc_vemlp_normalized` discriminator value, and the values of
`cn0_svn_estimator` / `carrier_lock_detector` over the filled Prompt
buffer. -/
structure Env where
  corr_VE : gr_complex
  corr_E : gr_complex
  corr_P : gr_complex
  corr_L : gr_complex
  corr_VL : gr_complex
  pll_atan_P : ℚ
  carr_error_filt_hz : ℚ
  dll_vemlp : ℚ
  code_error_filt_chips : ℚ
  cn0_value : ℚ
  lock_test_value : ℚ

/-- Observable effects of one `general_work` call: the single
`Gnss_Synchro` record written to the output stream, the number of input
samples passed to `consume_each`, and the messages published on the
`events` port. -/
structure WorkOutput where
  synchro : Gnss_Synchro
  consumed : ℤ
  events : List ℤ

/-- Result of the CN0-estimation / lock-detector section
(lines 384-417 of the source). -/
structure LockUpd where
  buffer : Fin 20 → gr_complex
  counter : ℕ
  cn0 : ℚ
  lock_test : ℚ
  fail : ℕ
  enabled : Bool
  events : List ℤ

/-- Lines 384-417: if the window is not yet full, store the current
Prompt at the window index and advance it; otherwise reset the index,
recompute C/N0 and the carrier-lock test over the stored window (oracle
values), and run the loss-of-lock escalation. -/
def lock_detector_step (env : Env) (s : TrackingState) : LockUpd :=
  if s.d_cn0_estimation_counter < CN0_ESTIMATION_SAMPLES then
    { buffer := fun i =>
        if (i : ℕ) = s.d_cn0_estimation_counter then env.corr_P else s.d_Prompt_buffer i,
      counter := s.d_cn0_estimation_counter + 1,
      cn0 := s.d_CN0_SNV_dB_Hz,
      lock_test := s.d_carrier_lock_test,
      fail := s.d_carrier_lock_fail_counter,
      enabled := s.d_enable_tracking,
      events := [] }
  else
    let cn0 := env.cn0_value
    let lock_test := env.lock_test_value
    let fail1 :=
      if lock_test < CARRIER_LOCK_THRESHOLD ∨ cn0 < MINIMUM_VALID_CN0 then
        s.d_carrier_lock_fail_counter + 1
      else
        if 0 < s.d_carrier_lock_fail_counter then s.d_carrier_lock_fail_counter - 1
        else s.d_carrier_lock_fail_counter
    if MAXIMUM_LOCK_FAIL_COUNTER < fail1 then
      { buffer := s.d_Prompt_buffer, counter := 0, cn0 := cn0, lock_test := lock_test,
        fail := 0, enabled := false, events := [3] }
    else
      { buffer := s.d_Prompt_buffer, counter := 0, cn0 := cn0, lock_test := lock_test,
        fail := fail1, enabled := s.d_enable_tracking, events := [] }

/-- Lines 319-321: the sample offset computed on the pull-in period.
`acq_to_trk_delay_samples` is the int difference of the two sample
counters, and the correction uses C `fmod` on doubles. -/
def pull_in_samples_offset (p : Params) (s : TrackingState) : ℤ :=
  let acq_to_trk_delay_samples : ℤ := s.d_sample_counter - p.d_acq_sample_stamp
  let acq_trk_shif_correction_samples : ℚ :=
    (s.d_current_prn_length_samples : ℚ) -
      fmodQ (acq_to_trk_delay_samples : ℚ) ((s.d_current_prn_length_samples : ℚ))
  roundC (p.d_acq_code_phase_samples + acq_trk_shif_correction_samples)

/-- Lines 311-329: the pull-in branch.  The output record is the copy of
the acquisition `Gnss_Synchro` with the aligned sample counter and the
sampling frequency filled in; `samples_offset` samples are consumed, the
counter advances by the same amount, the flag is cleared, and no
correlator runs. -/
def pull_in_step (p : Params) (s : TrackingState) : TrackingState × WorkOutput :=
  let samples_offset := pull_in_samples_offset p s
  let synchro :=
    { p.acquisition_gnss_synchro with
        Tracking_sample_counter := s.d_sample_counter + samples_offset,
        fs := p.d_fs_in }
  ({ s with
      d_sample_counter := s.d_sample_counter + samples_offset,
      d_pull_in := false },
   { synchro := synchro, consumed := samples_offset, events := [] })

/-- Line 347 of the source: the PLL discriminator output scaled to
cycles (`pll_cloop_two_quadrant_atan` is the oracle `env.pll_atan_P`). -/
def gw_carr_error_hz (env : Env) : ℚ :=
  env.pll_atan_P / GALILEO_TWO_PI

/-- Line 351: the new carrier Doppler estimate
`d_acq_carrier_doppler_hz + carr_error_filt_hz`. -/
def gw_carrier_doppler_hz (p : Params) (env : Env) : ℚ :=
  p.d_acq_carrier_doppler_hz + env.carr_error_filt_hz

/-- Line 353: code-rate aiding from the carrier Doppler. -/
def gw_code_freq_chips (p : Params) (env : Env) : ℚ :=
  Galileo_E1_CODE_CHIP_RATE_HZ +
    gw_carrier_doppler_hz p env * Galileo_E1_CODE_CHIP_RATE_HZ / Galileo_E1_FREQ_HZ

/-- Lines 355-357: the carrier-phase increment
`2π · doppler · current_prn_length_samples / fs` of this period. -/
def gw_carr_phase_inc (p : Params) (env : Env) (s : TrackingState) : ℚ :=
  GALILEO_TWO_PI * gw_carrier_doppler_hz p env *
    (s.d_current_prn_length_samples : ℚ) / (p.d_fs_in : ℚ)

/-- Line 367: the filtered code error converted to seconds. -/
def gw_code_error_filt_secs (env : Env) : ℚ :=
  Galileo_E1_CODE_PERIOD * env.code_error_filt_chips / Galileo_E1_CODE_CHIP_RATE_HZ

/-- Lines 377-380: the next block length in samples (before rounding),
`T_prn_samples + rem_code_phase_samples + code_error_filt_secs · fs`. -/
def gw_K_blk_samples (p : Params) (env : Env) (s : TrackingState) : ℚ :=
  let T_chip_seconds := 1 / gw_code_freq_chips p env
  let T_prn_seconds := T_chip_seconds * Galileo_E1_B_CODE_LENGTH_CHIPS
  let T_prn_samples := T_prn_seconds * (p.d_fs_in : ℚ)
  T_prn_samples + s.d_rem_code_phase_samples +
    gw_code_error_filt_secs env * (p.d_fs_in : ℚ)

/-- Lines 331-434 and the common tail 443-521: one tracked (LOCKED)
period.  The multicorrelator, discriminators, loop filters and lock
indicators are external; their outputs enter through `env`.  The local
doubles of the source (`carr_error_hz`, `carrier_doppler_hz`,
`code_freq_chips`, `code_error_filt_secs`, `K_blk_samples`) are the
`gw_*` definitions above. -/
def locked_step (p : Params) (env : Env) (s : TrackingState) : TrackingState × WorkOutput :=
  let carrier_doppler_hz := gw_carrier_doppler_hz p env
  let code_freq_chips := gw_code_freq_chips p env
  let acc_carrier_phase_rad := s.d_acc_carrier_phase_rad - gw_carr_phase_inc p env s
  let rem_carr_phase_rad :=
    fmodQ (s.d_rem_carr_phase_rad + gw_carr_phase_inc p env s) GALILEO_TWO_PI
  let acc_code_phase_secs := s.d_acc_code_phase_secs + gw_code_error_filt_secs env
  let K_blk_samples := gw_K_blk_samples p env s
  let current_prn_length_samples : ℤ := roundC K_blk_samples
  let lock := lock_detector_step env s
  let synchro :=
    { p.acquisition_gnss_synchro with
        Prompt_I := env.corr_P.re,
        Prompt_Q := env.corr_P.im,
        Tracking_sample_counter := s.d_sample_counter,
        Code_phase_samples := s.d_rem_code_phase_samples,
        Carrier_phase_rads := acc_carrier_phase_rad,
        Carrier_Doppler_hz := carrier_doppler_hz,
        CN0_dB_hz := lock.cn0,
        Flag_valid_symbol_output := true,
        correlation_length_ms := Galileo_E1_CODE_PERIOD_MS,
        System := 'E',
        Signal := "1B",
        fs := p.d_fs_in }
  ({ s with
      d_Very_Early := env.corr_VE,
      d_Early := env.corr_E,
      d_Prompt := env.corr_P,
      d_Late := env.corr_L,
      d_Very_Late := env.corr_VL,
      d_carrier_doppler_hz := carrier_doppler_hz,
      d_code_freq_chips := code_freq_chips,
      d_acc_carrier_phase_rad := acc_carrier_phase_rad,
      d_rem_carr_phase_rad := rem_carr_phase_rad,
      d_acc_code_phase_secs := acc_code_phase_secs,
      d_current_prn_length_samples := current_prn_length_samples,
      d_rem_code_phase_samples := K_blk_samples - (current_prn_length_samples : ℚ),
      d_cn0_estimation_counter := lock.counter,
      d_Prompt_buffer := lock.buffer,
      d_CN0_SNV_dB_Hz := lock.cn0,
      d_carrier_lock_test := lock.lock_test,
      d_carrier_lock_fail_counter := lock.fail,
      d_enable_tracking := lock.enabled,
      d_sample_counter := s.d_sample_counter + current_prn_length_samples },
   { synchro := synchro, consumed := current_prn_length_samples, events := lock.events })

/-- Lines 435-450 and the common tail: a call with tracking disabled.
Early, Prompt and Late are zeroed (Very-Early and Very-Late are not),
a default-constructed record carrying the current sample counter is
emitted, and `current_prn_length_samples` samples are consumed. -/
def disabled_step (p : Params) (s : TrackingState) : TrackingState × WorkOutput :=
  let synchro :=
    { p.blank_synchro with
        Tracking_sample_counter := s.d_sample_counter,
        System := 'E',
        Signal := "1B",
        fs := p.d_fs_in }
  ({ s with
      d_Early := { re := 0, im := 0 },
      d_Prompt := { re := 0, im := 0 },
      d_Late := { re := 0, im := 0 },
      d_sample_counter := s.d_sample_counter + s.d_current_prn_length_samples },
   { synchro := synchro, consumed := s.d_current_prn_length_samples, events := [] })

/-- The `general_work` method: dispatch between the pull-in branch, the
tracked-period branch and the disabled branch. -/
def general_work (p : Params) (env : Env) (s : TrackingState) : TrackingState × WorkOutput :=
  if s.d_enable_tracking then
    if s.d_pull_in then pull_in_step p s
    else locked_step p env s
  else disabled_step p s

/-! ## Spec-side formulas (named after the claims' wording, for comparison
with the source-derived step function) -/

/-- Following claim C1's words: `round(acq_delay_samples +
current_prn_length_samples - ((sample_counter - acq_sample_stamp) mod
current_prn_length_samples))` with a mathematical `mod`. -/
def spec_samples_offset (p : Params) (s : TrackingState) : ℤ :=
  roundC (p.d_acq_code_phase_samples +
    ((s.d_current_prn_length_samples : ℚ) -
      (((s.d_sample_counter - p.d_acq_sample_stamp) % s.d_current_prn_length_samples : ℤ) : ℚ)))

/-- Following claims C5 and C6's words: the tentative lock-fail count
after the increment / floored decrement (ℕ subtraction is the floored
decrement). -/
def spec_lock_fail_update (env : Env) (s : TrackingState) : ℕ :=
  if env.lock_test_value < CARRIER_LOCK_THRESHOLD ∨ env.cn0_value < MINIMUM_VALID_CN0 then
    s.d_carrier_lock_fail_counter + 1
  else
    s.d_carrier_lock_fail_counter - 1

/-! ## Concrete fixtures for witnesses and counterexamples -/

/-- An acquisition record for PRN 11 (fs = 4 MHz scenario family). -/
def synchroA : Gnss_Synchro :=
  { System := 'E', Signal := "1B", PRN := 11,
    Acq_delay_samples := 137, Acq_doppler_hz := 1000, Acq_samplestamp_samples := 0,
    Tracking_sample_counter := 0, fs := 4000000, Prompt_I := 0, Prompt_Q := 0,
    Code_phase_samples := 0, Carrier_phase_rads := 0, Carrier_Doppler_hz := 0,
    CN0_dB_hz := 0, Flag_valid_symbol_output := false, correlation_length_ms := 4 }

def params0 : Params :=
  { d_fs_in := 4000000, d_channel := 0,
    d_acq_code_phase_samples := 137, d_acq_carrier_doppler_hz := 1000,
    d_acq_sample_stamp := 0,
    acquisition_gnss_synchro := synchroA, blank_synchro := synchroA }

def params_ch7 : Params := { params0 with d_channel := 7 }

def zeroBuffer : Fin 20 → gr_complex := fun _ => { re := 0, im := 0 }

def state0 : TrackingState :=
  { d_enable_tracking := true, d_pull_in := false,
    d_sample_counter := 8000, d_current_prn_length_samples := 4000,
    d_carrier_doppler_hz := 1000, d_code_freq_chips := 1023000,
    d_rem_code_phase_samples := 1/4, d_rem_carr_phase_rad := 1,
    d_acc_carrier_phase_rad := 0, d_acc_code_phase_secs := 0,
    d_cn0_estimation_counter := 3, d_Prompt_buffer := zeroBuffer,
    d_CN0_SNV_dB_Hz := 0, d_carrier_lock_test := 1, d_carrier_lock_fail_counter := 0,
    d_Very_Early := { re := 1, im := 0 }, d_Early := { re := 2, im := 0 },
    d_Prompt := { re := 5, im := 1 }, d_Late := { re := 2, im := 0 },
    d_Very_Late := { re := 1, im := 0 } }

def env0 : Env :=
  { corr_VE := { re := 1, im := 0 }, corr_E := { re := 2, im := 0 },
    corr_P := { re := 5, im := 1 }, corr_L := { re := 2, im := 0 },
    corr_VL := { re := 1, im := 0 },
    pll_atan_P := 1/10, carr_error_filt_hz := 2, dll_vemlp := 1/10,
    code_error_filt_chips := 1/2, cn0_value := 40, lock_test_value := 19/20 }

/-- A pull-in-pending state. -/
def state_pullin : TrackingState := { state0 with d_pull_in := true }

/-- A disabled state. -/
def state_disabled : TrackingState := { state0 with d_enable_tracking := false }

/-- A state whose Prompt window has just been filled (index at 20). -/
def state_full : TrackingState := { state0 with d_cn0_estimation_counter := 20 }

/-- Full window and the lock-fail counter already at the maximum. -/
def state_fail50 : TrackingState := { state_full with d_carrier_lock_fail_counter := 50 }

/-- A state with zero carrier-phase remnant, for the negative-Doppler
counterexample. -/
def state_cx2 : TrackingState := { state0 with d_rem_carr_phase_rad := 0 }

/-- Oracle with a filter output that drives the Doppler to -500 Hz. -/
def env_negdop : Env := { env0 with carr_error_filt_hz := -1500 }

/-- Oracle reporting failed lock indicators. -/
def env_bad : Env := { env0 with lock_test_value := 0, cn0_value := 0 }

/-! ## Basic lemmas about the numeric primitives -/

lemma fmodQ_nonneg_bounds (x y : ℚ) (hx : 0 ≤ x) (hy : 0 < y) :
    0 ≤ fmodQ x y ∧ fmodQ x y < y := by
  have hyne : y ≠ 0 := ne_of_gt hy
  have hq : 0 ≤ x / y := div_nonneg hx (le_of_lt hy)
  have h1 : ((⌊x / y⌋ : ℚ)) ≤ x / y := Int.floor_le _
  have h2 : x / y < (⌊x / y⌋ : ℚ) + 1 := Int.lt_floor_add_one _
  have hx' : (x / y) * y = x := div_mul_cancel₀ x hyne
  unfold fmodQ truncQ
  rw [if_pos hq]
  constructor <;> nlinarith

lemma fmodQ_neg_bounds (x y : ℚ) (hx : x < 0) (hy : 0 < y) :
    -y < fmodQ x y ∧ fmodQ x y ≤ 0 := by
  have hyne : y ≠ 0 := ne_of_gt hy
  have hq : ¬ (0 ≤ x / y) := by
    rw [not_le]
    exact div_neg_of_neg_of_pos hx hy
  have h1 : x / y ≤ ((⌈x / y⌉ : ℚ)) := Int.le_ceil _
  have h2 : ((⌈x / y⌉ : ℚ)) < x / y + 1 := Int.ceil_lt_add_one _
  have hx' : (x / y) * y = x := div_mul_cancel₀ x hyne
  unfold fmodQ truncQ
  rw [if_neg hq]
  constructor <;> nlinarith

lemma abs_fmodQ_lt (x y : ℚ) (hy : 0 < y) : |fmodQ x y| < y := by
  rcases le_or_lt 0 x with hx | hx
  · have h := fmodQ_nonneg_bounds x y hx hy
    rw [abs_of_nonneg h.1]
    exact h.2
  · have h := fmodQ_neg_bounds x y hx hy
    rw [abs_of_nonpos h.2]
    linarith [h.1]

/-- On a nonnegative integer dividend and positive integer divisor,
C `fmod` agrees with the mathematical `mod`. -/
lemma fmodQ_intCast (a b : ℤ) (ha : 0 ≤ a) (hb : 0 < b) :
    fmodQ (a : ℚ) (b : ℚ) = ((a % b : ℤ) : ℚ) := by
  have hq : 0 ≤ (a : ℚ) / (b : ℚ) := by
    apply div_nonneg
    · exact_mod_cast ha
    · exact_mod_cast hb.le
  have hfl : ⌊(a : ℚ) / (b : ℚ)⌋ = a / b := by
    have h1 : b = ((b.toNat : ℕ) : ℤ) := by omega
    rw [h1]
    push_cast
    exact Rat.floor_intCast_div_natCast a b.toNat
  unfold fmodQ truncQ
  rw [if_pos hq, hfl, Int.emod_def]
  push_cast
  ring

lemma abs_sub_roundC (x : ℚ) : |x - (roundC x : ℚ)| ≤ 1/2 := by
  unfold roundC
  by_cases h : 0 ≤ x
  · rw [if_pos h]
    have h1 : ((⌊x + 1/2⌋ : ℚ)) ≤ x + 1/2 := Int.floor_le _
    have h2 : x + 1/2 < (⌊x + 1/2⌋ : ℚ) + 1 := Int.lt_floor_add_one _
    rw [abs_le]
    constructor <;> linarith
  · rw [if_neg h]
    have h1 : x - 1/2 ≤ ((⌈x - 1/2⌉ : ℚ)) := Int.le_ceil _
    have h2 : ((⌈x - 1/2⌉ : ℚ)) < x - 1/2 + 1 := Int.ceil_lt_add_one _
    rw [abs_le]
    constructor <;> linarith

/-! ## Dispatch and projection lemmas for the step function -/

lemma general_work_eq_pull_in (p : Params) (env : Env) (s : TrackingState)
    (he : s.d_enable_tracking = true) (hp : s.d_pull_in = true) :
    general_work p env s = pull_in_step p s := by
  simp [general_work, he, hp]

lemma general_work_eq_locked (p : Params) (env : Env) (s : TrackingState)
    (he : s.d_enable_tracking = true) (hp : s.d_pull_in = false) :
    general_work p env s = locked_step p env s := by
  simp [general_work, he, hp]

lemma general_work_eq_disabled (p : Params) (env : Env) (s : TrackingState)
    (he : s.d_enable_tracking = false) :
    general_work p env s = disabled_step p s := by
  simp [general_work, he]

lemma locked_step_rem_code_phase (p : Params) (env : Env) (s : TrackingState) :
    (locked_step p env s).1.d_rem_code_phase_samples =
      gw_K_blk_samples p env s - ((roundC (gw_K_blk_samples p env s) : ℤ) : ℚ) := rfl

lemma locked_step_rem_carr_phase (p : Params) (env : Env) (s : TrackingState) :
    (locked_step p env s).1.d_rem_carr_phase_rad =
      fmodQ (s.d_rem_carr_phase_rad + gw_carr_phase_inc p env s) GALILEO_TWO_PI := rfl

lemma locked_step_sample_counter (p : Params) (env : Env) (s : TrackingState) :
    (locked_step p env s).1.d_sample_counter =
      s.d_sample_counter + roundC (gw_K_blk_samples p env s) := rfl

lemma locked_step_prn_length (p : Params) (env : Env) (s : TrackingState) :
    (locked_step p env s).1.d_current_prn_length_samples =
      roundC (gw_K_blk_samples p env s) := rfl

lemma locked_step_consumed (p : Params) (env : Env) (s : TrackingState) :
    (locked_step p env s).2.consumed = roundC (gw_K_blk_samples p env s) := rfl

lemma locked_step_fail_counter (p : Params) (env : Env) (s : TrackingState) :
    (locked_step p env s).1.d_carrier_lock_fail_counter =
      (lock_detector_step env s).fail := rfl

lemma locked_step_enable (p : Params) (env : Env) (s : TrackingState) :
    (locked_step p env s).1.d_enable_tracking = (lock_detector_step env s).enabled := rfl

lemma locked_step_events (p : Params) (env : Env) (s : TrackingState) :
    (locked_step p env s).2.events = (lock_detector_step env s).events := rfl

lemma locked_step_cn0_counter (p : Params) (env : Env) (s : TrackingState) :
    (locked_step p env s).1.d_cn0_estimation_counter =
      (lock_detector_step env s).counter := rfl

lemma locked_step_buffer (p : Params) (env : Env) (s : TrackingState) :
    (locked_step p env s).1.d_Prompt_buffer = (lock_detector_step env s).buffer := rfl

lemma locked_step_cn0 (p : Params) (env : Env) (s : TrackingState) :
    (locked_step p env s).1.d_CN0_SNV_dB_Hz = (lock_detector_step env s).cn0 := rfl

lemma locked_step_lock_test (p : Params) (env : Env) (s : TrackingState) :
    (locked_step p env s).1.d_carrier_lock_test =
      (lock_detector_step env s).lock_test := rfl

/-! ## Claims -/

/-- Claim C1: on the first processed period after activation (pull-in
pending) the controller computes `samples_offset = round(acq_delay_samples
+ current_prn_length_samples - ((sample_counter - acq_sample_stamp) mod
current_prn_length_samples))`, consumes exactly `samples_offset` input
samples without running any correlator (the five correlator outputs are
untouched), emits one output record whose tracking sample counter equals
`sample_counter + samples_offset`, advances `sample_counter` by
`samples_offset`, and clears the pull-in flag while tracking stays
enabled (PULL_IN to LOCKED). -/
theorem C1_pull_in_alignment (p : Params) (env : Env) (s : TrackingState)
    (he : s.d_enable_tracking = true) (hp : s.d_pull_in = true)
    (hN : 0 < s.d_current_prn_length_samples)
    (hstamp : p.d_acq_sample_stamp ≤ s.d_sample_counter) :
    (general_work p env s).2.consumed = spec_samples_offset p s
    ∧ (general_work p env s).2.synchro.Tracking_sample_counter
        = s.d_sample_counter + spec_samples_offset p s
    ∧ (general_work p env s).1.d_sample_counter
        = s.d_sample_counter + spec_samples_offset p s
    ∧ (general_work p env s).1.d_pull_in = false
    ∧ (general_work p env s).1.d_enable_tracking = true
    ∧ (general_work p env s).1.d_Very_Early = s.d_Very_Early
    ∧ (general_work p env s).1.d_Early = s.d_Early
    ∧ (general_work p env s).1.d_Prompt = s.d_Prompt
    ∧ (general_work p env s).1.d_Late = s.d_Late
    ∧ (general_work p env s).1.d_Very_Late = s.d_Very_Late := by
  have key : pull_in_samples_offset p s = spec_samples_offset p s := by
    have h := fmodQ_intCast (s.d_sample_counter - p.d_acq_sample_stamp)
      s.d_current_prn_length_samples (by omega) hN
    simp only [pull_in_samples_offset, spec_samples_offset]
    rw [h]
  rw [general_work_eq_pull_in p env s he hp]
  simp [pull_in_step, key, he]

/-- Witness for C1 at a concrete pull-in state. -/
theorem C1_pull_in_alignment_witness :
    (state_pullin.d_enable_tracking = true ∧ state_pullin.d_pull_in = true
      ∧ 0 < state_pullin.d_current_prn_length_samples
      ∧ params0.d_acq_sample_stamp ≤ state_pullin.d_sample_counter)
    ∧ ((general_work params0 env0 state_pullin).2.consumed
          = spec_samples_offset params0 state_pullin
      ∧ (general_work params0 env0 state_pullin).2.synchro.Tracking_sample_counter
          = state_pullin.d_sample_counter + spec_samples_offset params0 state_pullin
      ∧ (general_work params0 env0 state_pullin).1.d_sample_counter
          = state_pullin.d_sample_counter + spec_samples_offset params0 state_pullin
      ∧ (general_work params0 env0 state_pullin).1.d_pull_in = false
      ∧ (general_work params0 env0 state_pullin).1.d_enable_tracking = true
      ∧ (general_work params0 env0 state_pullin).1.d_Very_Early = state_pullin.d_Very_Early
      ∧ (general_work params0 env0 state_pullin).1.d_Early = state_pullin.d_Early
      ∧ (general_work params0 env0 state_pullin).1.d_Prompt = state_pullin.d_Prompt
      ∧ (general_work params0 env0 state_pullin).1.d_Late = state_pullin.d_Late
      ∧ (general_work params0 env0 state_pullin).1.d_Very_Late = state_pullin.d_Very_Late) :=
  ⟨⟨rfl, rfl, by decide, by decide⟩,
   C1_pull_in_alignment params0 env0 state_pullin rfl rfl (by decide) (by decide)⟩

/-- Claim C3: after the block-length recomputation on a tracked period,
the code-phase remnant `K_blk_samples - round(K_blk_samples)` has
absolute value below one sample. -/
theorem C3_rem_code_phase_lt_one (p : Params) (env : Env) (s : TrackingState)
    (he : s.d_enable_tracking = true) (hp : s.d_pull_in = false) :
    |(general_work p env s).1.d_rem_code_phase_samples| < 1 := by
  rw [general_work_eq_locked p env s he hp, locked_step_rem_code_phase]
  refine lt_of_le_of_lt (abs_sub_roundC _) (by norm_num)

/-- Witness for C3 at a concrete tracked state. -/
theorem C3_rem_code_phase_lt_one_witness :
    (state0.d_enable_tracking = true ∧ state0.d_pull_in = false)
    ∧ |(general_work params0 env0 state0).1.d_rem_code_phase_samples| < 1 :=
  ⟨⟨rfl, rfl⟩, C3_rem_code_phase_lt_one params0 env0 state0 rfl rfl⟩

/-- Claim C4: on every call, `sample_counter` advances by exactly the
number of consumed samples; that number is the pull-in offset on the
pull-in period and `current_prn_length_samples` (as left for the next
period) otherwise; whenever the consumed count is nonnegative the counter
is non-decreasing. -/
theorem C4_sample_counter_advance (p : Params) (env : Env) (s : TrackingState) :
    (general_work p env s).1.d_sample_counter
      = s.d_sample_counter + (general_work p env s).2.consumed
    ∧ (general_work p env s).2.consumed =
        (if s.d_enable_tracking = true ∧ s.d_pull_in = true
         then pull_in_samples_offset p s
         else (general_work p env s).1.d_current_prn_length_samples)
    ∧ (0 ≤ (general_work p env s).2.consumed →
        s.d_sample_counter ≤ (general_work p env s).1.d_sample_counter) := by
  rcases hE : s.d_enable_tracking with _ | _
  · rw [general_work_eq_disabled p env s hE]
    refine ⟨rfl, ?_, fun h => ?_⟩
    · simp [hE, disabled_step]
    · simp only [disabled_step] at h ⊢
      omega
  · rcases hP : s.d_pull_in with _ | _
    · rw [general_work_eq_locked p env s hE hP]
      refine ⟨?_, ?_, fun h => ?_⟩
      · rw [locked_step_sample_counter, locked_step_consumed]
      · rw [locked_step_consumed, locked_step_prn_length, if_neg (by simp [hP])]
      · rw [locked_step_consumed] at h
        rw [locked_step_sample_counter]
        omega
    · rw [general_work_eq_pull_in p env s hE hP]
      refine ⟨rfl, ?_, fun h => ?_⟩
      · simp [hE, hP, pull_in_step]
      · simp only [pull_in_step] at h ⊢
        omega

/-- Witness for C4 (the monotonicity hypothesis discharged at a disabled
state that consumes 4000 samples). -/
theorem C4_sample_counter_advance_witness :
    0 ≤ (general_work params0 env0 state_disabled).2.consumed
    ∧ state_disabled.d_sample_counter
        ≤ (general_work params0 env0 state_disabled).1.d_sample_counter :=
  ⟨by decide, (C4_sample_counter_advance params0 env0 state_disabled).2.2 (by decide)⟩

/-- Claim C10: a call with tracking disabled still emits exactly one
record carrying the current `sample_counter`, System `'E'` and Signal
`"1B"`, consumes `current_prn_length_samples` samples and advances the
counter by that amount, zeroes Early, Prompt and Late (not Very-Early or
Very-Late), and changes no other state field. -/
theorem C10_disabled_frame (p : Params) (env : Env) (s : TrackingState)
    (he : s.d_enable_tracking = false) :
    (general_work p env s).2.synchro.Tracking_sample_counter = s.d_sample_counter
    ∧ (general_work p env s).2.synchro.System = 'E'
    ∧ (general_work p env s).2.synchro.Signal = "1B"
    ∧ (general_work p env s).2.consumed = s.d_current_prn_length_samples
    ∧ (general_work p env s).1.d_sample_counter
        = s.d_sample_counter + s.d_current_prn_length_samples
    ∧ (general_work p env s).1.d_Early = { re := 0, im := 0 }
    ∧ (general_work p env s).1.d_Prompt = { re := 0, im := 0 }
    ∧ (general_work p env s).1.d_Late = { re := 0, im := 0 }
    ∧ (general_work p env s).1.d_Very_Early = s.d_Very_Early
    ∧ (general_work p env s).1.d_Very_Late = s.d_Very_Late
    ∧ (general_work p env s).1.d_enable_tracking = s.d_enable_tracking
    ∧ (general_work p env s).1.d_pull_in = s.d_pull_in
    ∧ (general_work p env s).1.d_current_prn_length_samples = s.d_current_prn_length_samples
    ∧ (general_work p env s).1.d_carrier_doppler_hz = s.d_carrier_doppler_hz
    ∧ (general_work p env s).1.d_code_freq_chips = s.d_code_freq_chips
    ∧ (general_work p env s).1.d_rem_code_phase_samples = s.d_rem_code_phase_samples
    ∧ (general_work p env s).1.d_rem_carr_phase_rad = s.d_rem_carr_phase_rad
    ∧ (general_work p env s).1.d_acc_carrier_phase_rad = s.d_acc_carrier_phase_rad
    ∧ (general_work p env s).1.d_acc_code_phase_secs = s.d_acc_code_phase_secs
    ∧ (general_work p env s).1.d_cn0_estimation_counter = s.d_cn0_estimation_counter
    ∧ (general_work p env s).1.d_Prompt_buffer = s.d_Prompt_buffer
    ∧ (general_work p env s).1.d_CN0_SNV_dB_Hz = s.d_CN0_SNV_dB_Hz
    ∧ (general_work p env s).1.d_carrier_lock_test = s.d_carrier_lock_test
    ∧ (general_work p env s).1.d_carrier_lock_fail_counter = s.d_carrier_lock_fail_counter
    ∧ (general_work p env s).2.events = [] := by
  rw [general_work_eq_disabled p env s he]
  simp [disabled_step, he]

/-- Witness for C10 at a concrete disabled state. -/
theorem C10_disabled_frame_witness :
    state_disabled.d_enable_tracking = false
    ∧ (general_work params0 env0 state_disabled).2.synchro.Tracking_sample_counter
        = state_disabled.d_sample_counter
    ∧ (general_work params0 env0 state_disabled).2.synchro.System = 'E'
    ∧ (general_work params0 env0 state_disabled).2.consumed
        = state_disabled.d_current_prn_length_samples
    ∧ (general_work params0 env0 state_disabled).1.d_Early = { re := 0, im := 0 }
    ∧ (general_work params0 env0 state_disabled).1.d_Very_Early
        = state_disabled.d_Very_Early :=
  ⟨rfl, (C10_disabled_frame params0 env0 state_disabled rfl).1,
    (C10_disabled_frame params0 env0 state_disabled rfl).2.1,
    (C10_disabled_frame params0 env0 state_disabled rfl).2.2.2.1,
    (C10_disabled_frame params0 env0 state_disabled rfl).2.2.2.2.2.1,
    (C10_disabled_frame params0 env0 state_disabled rfl).2.2.2.2.2.2.2.2.1⟩

/-- C `fmod` is the identity on arguments already inside `(-y, 0)`. -/
lemma fmodQ_of_neg_gt (x y : ℚ) (h1 : -y < x) (h2 : x < 0) (hy : 0 < y) :
    fmodQ x y = x := by
  have hq : ¬ (0 ≤ x / y) := by
    rw [not_le]
    exact div_neg_of_neg_of_pos h2 hy
  have hceil : ⌈x / y⌉ = 0 := by
    rw [Int.ceil_eq_zero_iff, Set.mem_Ioc]
    constructor
    · rw [lt_div_iff₀ hy]
      linarith
    · exact le_of_lt (div_neg_of_neg_of_pos h2 hy)
  unfold fmodQ truncQ
  rw [if_neg hq, hceil]
  simp

/-- On a full window, the lock-detector section reduces to the reset /
escalation branch, with the tentative count written as the claims write
it (`spec_lock_fail_update`). -/
lemma lock_detector_step_full (env : Env) (s : TrackingState)
    (hw : CN0_ESTIMATION_SAMPLES ≤ s.d_cn0_estimation_counter) :
    lock_detector_step env s =
      (if MAXIMUM_LOCK_FAIL_COUNTER < spec_lock_fail_update env s then
        { buffer := s.d_Prompt_buffer, counter := 0, cn0 := env.cn0_value,
          lock_test := env.lock_test_value, fail := 0, enabled := false, events := [3] }
      else
        { buffer := s.d_Prompt_buffer, counter := 0, cn0 := env.cn0_value,
          lock_test := env.lock_test_value, fail := spec_lock_fail_update env s,
          enabled := s.d_enable_tracking, events := [] }) := by
  have hnw : ¬ (s.d_cn0_estimation_counter < CN0_ESTIMATION_SAMPLES) := Nat.not_lt.mpr hw
  have hff : (if 0 < s.d_carrier_lock_fail_counter then s.d_carrier_lock_fail_counter - 1
      else s.d_carrier_lock_fail_counter) = s.d_carrier_lock_fail_counter - 1 := by
    rcases Nat.eq_zero_or_pos s.d_carrier_lock_fail_counter with h | h
    · simp [h]
    · rw [if_pos h]
  unfold lock_detector_step spec_lock_fail_update
  rw [if_neg hnw]
  simp only [hff]

/-- Claim C2 fails as stated: with a negative current carrier Doppler the
`std::fmod` remnant update can leave `rem_carr_phase_rad` negative.  At
the concrete tracked state below (zero previous remnant, Doppler driven
to -500 Hz) the updated remnant is negative. -/
theorem C2_counterexample :
    state_cx2.d_enable_tracking = true ∧ state_cx2.d_pull_in = false
    ∧ (general_work params0 env_negdop state_cx2).1.d_rem_carr_phase_rad < 0 := by
  refine ⟨rfl, rfl, ?_⟩
  rw [general_work_eq_locked params0 env_negdop state_cx2 rfl rfl,
    locked_step_rem_carr_phase]
  have hinc : state_cx2.d_rem_carr_phase_rad + gw_carr_phase_inc params0 env_negdop state_cx2
      = -(GALILEO_TWO_PI / 2) := by
    norm_num [state_cx2, state0, params0, env_negdop, env0, gw_carr_phase_inc,
      gw_carrier_doppler_hz, GALILEO_TWO_PI]
  rw [hinc, fmodQ_of_neg_gt _ _ (by norm_num [GALILEO_TWO_PI]) (by norm_num [GALILEO_TWO_PI])
    (by norm_num [GALILEO_TWO_PI])]
  norm_num [GALILEO_TWO_PI]

/-- Claim C2 amended: after the remnant update, `rem_carr_phase_rad` lies
strictly between `-2π` and `2π`; it is nonnegative (hence in `[0, 2π)`)
whenever the previous remnant plus the carrier-phase increment of the
period is nonnegative (in particular for nonnegative Doppler), but it
carries the sign of that sum, so a negative Doppler can leave it
negative. -/
theorem C2_amended_rem_carr_phase_bounds (p : Params) (env : Env) (s : TrackingState)
    (he : s.d_enable_tracking = true) (hp : s.d_pull_in = false) :
    |(general_work p env s).1.d_rem_carr_phase_rad| < GALILEO_TWO_PI
    ∧ (0 ≤ s.d_rem_carr_phase_rad + gw_carr_phase_inc p env s →
        0 ≤ (general_work p env s).1.d_rem_carr_phase_rad) := by
  rw [general_work_eq_locked p env s he hp, locked_step_rem_carr_phase]
  have h2pi : (0 : ℚ) < GALILEO_TWO_PI := by norm_num [GALILEO_TWO_PI]
  exact ⟨abs_fmodQ_lt _ _ h2pi, fun h => (fmodQ_nonneg_bounds _ _ h h2pi).1⟩

/-- Witness for the amended C2 at a concrete tracked state with positive
Doppler. -/
theorem C2_amended_rem_carr_phase_bounds_witness :
    (state0.d_enable_tracking = true ∧ state0.d_pull_in = false
      ∧ 0 ≤ state0.d_rem_carr_phase_rad + gw_carr_phase_inc params0 env0 state0)
    ∧ (|(general_work params0 env0 state0).1.d_rem_carr_phase_rad| < GALILEO_TWO_PI
      ∧ 0 ≤ (general_work params0 env0 state0).1.d_rem_carr_phase_rad) :=
  ⟨⟨rfl, rfl, by norm_num [state0, params0, env0, gw_carr_phase_inc,
      gw_carrier_doppler_hz, GALILEO_TWO_PI]⟩,
   ⟨(C2_amended_rem_carr_phase_bounds params0 env0 state0 rfl rfl).1,
    (C2_amended_rem_carr_phase_bounds params0 env0 state0 rfl rfl).2
      (by norm_num [state0, params0, env0, gw_carr_phase_inc,
        gw_carrier_doppler_hz, GALILEO_TWO_PI])⟩⟩

/-- Claim C5: on a period where the lock indicators are recomputed (full
window), a failed test (`carrier_lock_test < 0.85` or `cn0 < 25`)
increments the fail counter and a passed test decrements it with floor 0;
when the updated counter exceeds 50, the loss-of-lock event `[3]` is
published, tracking is disabled, and the counter resets to 0; otherwise
the counter keeps the updated value, tracking stays enabled and no event
is published. -/
theorem C5_loss_of_lock_escalation (p : Params) (env : Env) (s : TrackingState)
    (he : s.d_enable_tracking = true) (hp : s.d_pull_in = false)
    (hw : CN0_ESTIMATION_SAMPLES ≤ s.d_cn0_estimation_counter) :
    (MAXIMUM_LOCK_FAIL_COUNTER < spec_lock_fail_update env s →
        (general_work p env s).1.d_carrier_lock_fail_counter = 0
        ∧ (general_work p env s).1.d_enable_tracking = false
        ∧ (general_work p env s).2.events = [3])
    ∧ (¬ MAXIMUM_LOCK_FAIL_COUNTER < spec_lock_fail_update env s →
        (general_work p env s).1.d_carrier_lock_fail_counter = spec_lock_fail_update env s
        ∧ (general_work p env s).1.d_enable_tracking = true
        ∧ (general_work p env s).2.events = []) := by
  rw [general_work_eq_locked p env s he hp, locked_step_fail_counter,
    locked_step_enable, locked_step_events, lock_detector_step_full env s hw]
  constructor
  · intro h
    rw [if_pos h]
    exact ⟨rfl, rfl, rfl⟩
  · intro h
    rw [if_neg h]
    exact ⟨rfl, he, rfl⟩

/-- Witness for C5 at a concrete full-window state with passing
indicators. -/
theorem C5_loss_of_lock_escalation_witness :
    (state_full.d_enable_tracking = true ∧ state_full.d_pull_in = false
      ∧ CN0_ESTIMATION_SAMPLES ≤ state_full.d_cn0_estimation_counter
      ∧ ¬ MAXIMUM_LOCK_FAIL_COUNTER < spec_lock_fail_update env0 state_full)
    ∧ ((general_work params0 env0 state_full).1.d_carrier_lock_fail_counter
        = spec_lock_fail_update env0 state_full
      ∧ (general_work params0 env0 state_full).1.d_enable_tracking = true
      ∧ (general_work params0 env0 state_full).2.events = []) :=
  ⟨⟨rfl, rfl, by decide,
    by norm_num [spec_lock_fail_update, env0, state_full, state0,
      CARRIER_LOCK_THRESHOLD, MINIMUM_VALID_CN0, MAXIMUM_LOCK_FAIL_COUNTER]⟩,
   (C5_loss_of_lock_escalation params0 env0 state_full rfl rfl (by decide)).2
    (by norm_num [spec_lock_fail_update, env0, state_full, state0,
      CARRIER_LOCK_THRESHOLD, MINIMUM_VALID_CN0, MAXIMUM_LOCK_FAIL_COUNTER])⟩

/-- Claim C6: the lock-fail counter stays in `[0, 51]` across every call
(it is a ℕ, so the lower bound is inherent), and on an
indicator-recompute period the reset to zero happens exactly when the
tentative count exceeds `MAXIMUM_LOCK_FAIL_COUNTER = 50` (together with
the disable and the event). -/
theorem C6_lock_fail_counter_range (p : Params) (env : Env) (s : TrackingState)
    (hf : s.d_carrier_lock_fail_counter ≤ MAXIMUM_LOCK_FAIL_COUNTER + 1) :
    (general_work p env s).1.d_carrier_lock_fail_counter ≤ MAXIMUM_LOCK_FAIL_COUNTER + 1
    ∧ (s.d_enable_tracking = true → s.d_pull_in = false →
        CN0_ESTIMATION_SAMPLES ≤ s.d_cn0_estimation_counter →
        (MAXIMUM_LOCK_FAIL_COUNTER < spec_lock_fail_update env s ↔
          ((general_work p env s).1.d_carrier_lock_fail_counter = 0
           ∧ (general_work p env s).1.d_enable_tracking = false
           ∧ (general_work p env s).2.events = [3]))) := by
  constructor
  · rcases hE : s.d_enable_tracking with _ | _
    · rw [general_work_eq_disabled p env s hE]
      exact hf
    · rcases hP : s.d_pull_in with _ | _
      · rw [general_work_eq_locked p env s hE hP, locked_step_fail_counter]
        rcases Nat.lt_or_ge s.d_cn0_estimation_counter CN0_ESTIMATION_SAMPLES with hw | hw
        · simp only [lock_detector_step]
          rw [if_pos hw]
          exact hf
        · rw [lock_detector_step_full env s hw]
          by_cases hr : MAXIMUM_LOCK_FAIL_COUNTER < spec_lock_fail_update env s
          · rw [if_pos hr]
            exact Nat.zero_le _
          · rw [if_neg hr]
            show spec_lock_fail_update env s ≤ MAXIMUM_LOCK_FAIL_COUNTER + 1
            unfold MAXIMUM_LOCK_FAIL_COUNTER at hr ⊢
            omega
      · rw [general_work_eq_pull_in p env s hE hP]
        exact hf
  · intro he hp hw
    rw [general_work_eq_locked p env s he hp, locked_step_fail_counter,
      locked_step_enable, locked_step_events, lock_detector_step_full env s hw]
    constructor
    · intro h
      rw [if_pos h]
      exact ⟨rfl, rfl, rfl⟩
    · intro h
      by_cases hr : MAXIMUM_LOCK_FAIL_COUNTER < spec_lock_fail_update env s
      · exact hr
      · rw [if_neg hr] at h
        have hcontra := h.2.1
        rw [he] at hcontra
        exact absurd hcontra (by simp)

/-- Witness for C6 at a concrete full-window state with passing
indicators. -/
theorem C6_lock_fail_counter_range_witness :
    (state_full.d_carrier_lock_fail_counter ≤ MAXIMUM_LOCK_FAIL_COUNTER + 1)
    ∧ ((general_work params0 env0 state_full).1.d_carrier_lock_fail_counter
          ≤ MAXIMUM_LOCK_FAIL_COUNTER + 1
      ∧ (state_full.d_enable_tracking = true → state_full.d_pull_in = false →
          CN0_ESTIMATION_SAMPLES ≤ state_full.d_cn0_estimation_counter →
          (MAXIMUM_LOCK_FAIL_COUNTER < spec_lock_fail_update env0 state_full ↔
            ((general_work params0 env0 state_full).1.d_carrier_lock_fail_counter = 0
             ∧ (general_work params0 env0 state_full).1.d_enable_tracking = false
             ∧ (general_work params0 env0 state_full).2.events = [3])))) :=
  ⟨by decide, C6_lock_fail_counter_range params0 env0 state_full (by decide)⟩

/-- Claim C7 fails as stated: on the period where the window index has
reached 20 the current Prompt is NOT pushed into the window (the buffer
is recomputed over the 20 previously stored samples and the index merely
resets), so the recompute happens every 21st processed period, not every
20th.  Concretely: a tracked period at a full-window state leaves the
all-zero window unchanged even though the current Prompt is (5, 1), while
C/N0 is recomputed and the index resets. -/
theorem C7_counterexample :
    state_full.d_enable_tracking = true ∧ state_full.d_pull_in = false
    ∧ state_full.d_Prompt_buffer = zeroBuffer
    ∧ env0.corr_P = { re := 5, im := 1 }
    ∧ ({ re := 5, im := 1 } : gr_complex) ≠ { re := 0, im := 0 }
    ∧ (general_work params0 env0 state_full).1.d_Prompt_buffer = zeroBuffer
    ∧ (general_work params0 env0 state_full).1.d_cn0_estimation_counter = 0
    ∧ (general_work params0 env0 state_full).1.d_CN0_SNV_dB_Hz = env0.cn0_value := by
  have hgw := general_work_eq_locked params0 env0 state_full rfl rfl
  have hfull := lock_detector_step_full env0 state_full (by decide)
  have hr : ¬ MAXIMUM_LOCK_FAIL_COUNTER < spec_lock_fail_update env0 state_full := by
    norm_num [spec_lock_fail_update, env0, state_full, state0,
      CARRIER_LOCK_THRESHOLD, MINIMUM_VALID_CN0, MAXIMUM_LOCK_FAIL_COUNTER]
  refine ⟨rfl, rfl, rfl, rfl, ?_, ?_, ?_, ?_⟩
  · intro h
    have := congrArg gr_complex.re h
    norm_num at this
  · rw [hgw, locked_step_buffer, hfull, if_neg hr]
    rfl
  · rw [hgw, locked_step_cn0_counter, hfull, if_neg hr]
  · rw [hgw, locked_step_cn0, hfull, if_neg hr]

/-- Claim C7 amended: while fewer than 20 Prompt samples have been
accumulated the current Prompt is stored at the window index and the
index advances, with no recomputation; on the period where the index has
reached 20 (every 21st processed period) the C/N0 estimate and the
carrier-lock test are recomputed over the 20 stored samples, the current
Prompt is not stored, and the index resets to 0. -/
theorem C7_amended_prompt_window (p : Params) (env : Env) (s : TrackingState)
    (he : s.d_enable_tracking = true) (hp : s.d_pull_in = false) :
    (s.d_cn0_estimation_counter < CN0_ESTIMATION_SAMPLES →
        (general_work p env s).1.d_Prompt_buffer = (fun i : Fin 20 =>
          if (i : ℕ) = s.d_cn0_estimation_counter then env.corr_P else s.d_Prompt_buffer i)
        ∧ (general_work p env s).1.d_cn0_estimation_counter = s.d_cn0_estimation_counter + 1
        ∧ (general_work p env s).1.d_CN0_SNV_dB_Hz = s.d_CN0_SNV_dB_Hz
        ∧ (general_work p env s).1.d_carrier_lock_test = s.d_carrier_lock_test)
    ∧ (CN0_ESTIMATION_SAMPLES ≤ s.d_cn0_estimation_counter →
        (general_work p env s).1.d_Prompt_buffer = s.d_Prompt_buffer
        ∧ (general_work p env s).1.d_cn0_estimation_counter = 0
        ∧ (general_work p env s).1.d_CN0_SNV_dB_Hz = env.cn0_value
        ∧ (general_work p env s).1.d_carrier_lock_test = env.lock_test_value) := by
  rw [general_work_eq_locked p env s he hp, locked_step_buffer,
    locked_step_cn0_counter, locked_step_cn0, locked_step_lock_test]
  constructor
  · intro hw
    simp only [lock_detector_step]
    rw [if_pos hw]
    exact ⟨rfl, rfl, rfl, rfl⟩
  · intro hw
    rw [lock_detector_step_full env s hw]
    by_cases hr : MAXIMUM_LOCK_FAIL_COUNTER < spec_lock_fail_update env s
    · rw [if_pos hr]
      exact ⟨rfl, rfl, rfl, rfl⟩
    · rw [if_neg hr]
      exact ⟨rfl, rfl, rfl, rfl⟩

/-- Witness for the amended C7: a push period at index 3. -/
theorem C7_amended_prompt_window_witness :
    (state0.d_enable_tracking = true ∧ state0.d_pull_in = false
      ∧ state0.d_cn0_estimation_counter < CN0_ESTIMATION_SAMPLES)
    ∧ ((general_work params0 env0 state0).1.d_Prompt_buffer = (fun i : Fin 20 =>
          if (i : ℕ) = state0.d_cn0_estimation_counter then env0.corr_P
          else state0.d_Prompt_buffer i)
      ∧ (general_work params0 env0 state0).1.d_cn0_estimation_counter
          = state0.d_cn0_estimation_counter + 1
      ∧ (general_work params0 env0 state0).1.d_CN0_SNV_dB_Hz = state0.d_CN0_SNV_dB_Hz
      ∧ (general_work params0 env0 state0).1.d_carrier_lock_test
          = state0.d_carrier_lock_test) :=
  ⟨⟨rfl, rfl, by decide⟩,
   (C7_amended_prompt_window params0 env0 state0 rfl rfl).1 (by decide)⟩

/-- Claim C8: the fallback path of `volk_gnsssdr_malloc` does not detect
a null underlying allocation.  With `malloc` returning NULL and alignment
16, the pointer arithmetic yields the non-null address 16 (and the code
then writes a header through invalid memory) instead of reporting the
failure and returning null as the spec requires. -/
theorem C8_fallback_null_undetected :
    volk_gnsssdr_malloc_fallback 16 none = 16
    ∧ volk_gnsssdr_malloc_fallback 16 none ≠ 0 := by
  constructor
  · rfl
  · decide

/-- Claim C9 amended: every message published on the `events` port is the
bare integer 3 (the loss-of-lock code); the list of events of a call is
`[]` or `[3]`, and in particular the channel id is never part of the
payload. -/
theorem C9_events_are_bare_tag (p : Params) (env : Env) (s : TrackingState) :
    (general_work p env s).2.events = [] ∨ (general_work p env s).2.events = [(3 : ℤ)] := by
  rcases hE : s.d_enable_tracking with _ | _
  · left
    rw [general_work_eq_disabled p env s hE]
    rfl
  · rcases hP : s.d_pull_in with _ | _
    · rw [general_work_eq_locked p env s hE hP, locked_step_events]
      rcases Nat.lt_or_ge s.d_cn0_estimation_counter CN0_ESTIMATION_SAMPLES with hw | hw
      · left
        simp only [lock_detector_step]
        rw [if_pos hw]
      · rw [lock_detector_step_full env s hw]
        by_cases hr : MAXIMUM_LOCK_FAIL_COUNTER < spec_lock_fail_update env s
        · right
          rw [if_pos hr]
        · left
          rw [if_neg hr]
    · left
      rw [general_work_eq_pull_in p env s hE hP]
      rfl

/-- Claim C9 fails as stated: on channel 7 a loss-of-lock event is
published with payload 3, which is not the channel id. -/
theorem C9_counterexample :
    params_ch7.d_channel = 7
    ∧ (general_work params_ch7 env_bad state_fail50).2.events = [(3 : ℤ)]
    ∧ (3 : ℤ) ≠ (params_ch7.d_channel : ℤ) := by
  have hr : MAXIMUM_LOCK_FAIL_COUNTER < spec_lock_fail_update env_bad state_fail50 := by
    norm_num [spec_lock_fail_update, env_bad, env0, state_fail50, state_full, state0,
      CARRIER_LOCK_THRESHOLD, MINIMUM_VALID_CN0, MAXIMUM_LOCK_FAIL_COUNTER]
  refine ⟨rfl, ?_, by decide⟩
  rw [general_work_eq_locked params_ch7 env_bad state_fail50 rfl rfl, locked_step_events,
    lock_detector_step_full env_bad state_fail50 (by decide), if_pos hr]
